import Mathlib

/-!
Shallow embedding of the vmgr dashboard core (src/app.rs, src/handler.rs,
src/vms.rs).

Modelling conventions:
* `u64` / `usize` values become `Nat`.  Rust's `saturating_sub` on `u64` is
  `Nat` subtraction (which is truncated, i.e. saturating at zero).  A plain
  `usize` subtraction that can overflow (`len - 1` on an empty list) is
  modelled with `checkedSub`, which reports the overflow as a runtime error
  (Rust panics in debug builds; release builds wrap, which is equally fatal
  for the correctness claims here and is noted where relevant).
* `std::time::Instant` timestamps become `ℚ` (seconds).
  `Instant::duration_since` saturates at zero, hence `max (t₂ - t₁) 0`.
* `f64` arithmetic in the cpu derivation is modelled over `ℚ`; the
  `format!("{:.2}%", v)` display step is modelled by `round2`, rounding the
  value to two decimal places.  String formatting itself (the `%`, ` Mb`
  suffixes, number-to-string) is rendering and is abstracted to the
  underlying numeric value.
* Fallible operations (indexing, `unwrap`, overflowing subtraction) return
  `Except RtError`; `RtError` values stand for Rust panics.
* External collaborators (the libvirt connection, `get_vm_data`, the
  terminal) are not modelled; functions that consume their results take
  those results as explicit parameters.  Pure display state of `App`
  (`conn`, `colors`, `max_item_lens`) is omitted.
-/

set_option autoImplicit false

namespace Vmgr

/-- A Rust panic (or, for the overflowing `usize` subtractions, the
debug-build panic / release-build wraparound site). -/
inductive RtError where
  | subOverflow
  | indexOutOfBounds
  | unwrapNone
  | panicked (msg : String)
  deriving DecidableEq, Repr

/-- `usize` subtraction as the Rust program performs it: an underflow is a
program error (panic in debug builds, wraparound in release builds). -/
def checkedSub (a b : Nat) : Except RtError Nat :=
  if b ≤ a then .ok (a - b) else .error .subOverflow

/-- `VmMetrics` from src/vms.rs.  `timestamp` is `Instant` modelled as
rational seconds; the `u64` counters are `Nat`. -/
structure VmMetrics where
  name : String
  status : Bool
  id : Nat
  timestamp : ℚ
  cpu_time : Nat
  mem_rss : Nat
  mem_cache : Nat
  net_name : String
  net_rx : Nat
  net_tx : Nat
  disk_name : String
  disk_path : String
  disk_rx : Nat
  disk_wx : Nat
  deriving DecidableEq, Repr

/-- The `Default` impl for `VmMetrics` (src/vms.rs).  The Rust default sets
`timestamp: Instant::now()`; the construction moment is passed in. -/
def VmMetrics.mkDefault (now : ℚ) : VmMetrics :=
  { name := "unknown"
    status := false
    id := 0
    timestamp := now
    cpu_time := 0
    mem_rss := 0
    mem_cache := 0
    net_name := "unknown"
    net_rx := 0
    net_tx := 0
    disk_name := "unknown"
    disk_path := "unknown"
    disk_rx := 0
    disk_wx := 0 }

instance : Inhabited VmMetrics := ⟨VmMetrics.mkDefault 0⟩

/-- Round a rational to two decimal places, modelling the
`format!("{:.2}%", v)` display step in src/app.rs. -/
def round2 (x : ℚ) : ℚ := (round (x * 100) : ℤ) / 100

/-- `TableData` from src/app.rs.  All five fields are `String` in the
source; numeric fields are modelled by the number the string displays
(`cpu_usage` after the two-decimal rounding of `format!("{:.2}%", _)`). -/
structure TableData where
  id : Nat
  name : String
  cpu_usage : ℚ
  mem_usage : Nat
  status : String
  deriving DecidableEq, Repr

/-- `ITEM_HEIGHT` from src/app.rs. -/
def ITEM_HEIGHT : Nat := 4

/-- The row built for one domain inside `App::default` (src/app.rs lines
111-123): cpu shows 0, memory shows `mem_rss + mem_cache` (no `/ 1024`
there), status maps the boolean to "on"/"off". -/
def initialTableData (m : VmMetrics) : TableData :=
  { id := m.id
    name := m.name
    cpu_usage := 0
    mem_usage := m.mem_rss + m.mem_cache
    status := if m.status then "on" else "off" }

/-- The row built for one domain inside `App::tick` (src/app.rs lines
149-171).  `elapsed` is `duration_since` (saturating at zero) in seconds;
the cpu branch uses `saturating_sub` (Nat subtraction) over the cumulative
nanosecond counter and is displayed via `format!("{:.2}%", _)` (`round2`);
memory shows `(mem_rss + mem_cache) / 1024` (integer division). -/
def deriveRow (prev cur : VmMetrics) : TableData :=
  let elapsed : ℚ := max (cur.timestamp - prev.timestamp) 0
  { id := cur.id
    name := cur.name
    cpu_usage :=
      if 0 < elapsed then
        round2 ((((cur.cpu_time - prev.cpu_time : Nat) : ℚ) / 1000000000) / elapsed * 100)
      else
        round2 0
    mem_usage := (cur.mem_rss + cur.mem_cache) / 1024
    status := if cur.status then "on" else "off" }

/-- The loop body of `App::tick`: for each fetched domain, indexed by `i`,
pair it with `self.metrics[i]` (an out-of-range index panics) and derive a
row. -/
def tickRowsFrom (prevBatch : List VmMetrics) : Nat → List VmMetrics → Except RtError (List TableData)
  | _, [] => .ok []
  | i, cur :: rest =>
    match prevBatch[i]? with
    | some prev => do
      let tail ← tickRowsFrom prevBatch (i + 1) rest
      .ok (deriveRow prev cur :: tail)
    | none => .error .indexOutOfBounds

/-- `App` from src/app.rs, restricted to the fields the core logic touches.
`table_state_selected` is `TableState::selected()`; `scroll_position` and
`scroll_content_length` are the `ScrollbarState` position and content
length.  `conn`, `colors` and `max_item_lens` carry no core logic and are
omitted. -/
structure App where
  running : Bool
  table_state_selected : Option Nat
  scroll_position : Nat
  scroll_content_length : Nat
  metrics : List VmMetrics
  table_data : List TableData
  deriving DecidableEq, Repr

namespace App

/-- `App::default` (src/app.rs lines 105-136), with the `get_vm_data`
result passed in.  `TableState::default().with_selected(0)` selects row 0;
`ScrollbarState::new((table_data.len() - 1) * ITEM_HEIGHT)` sets the
content length (position 0); the `len() - 1` subtraction underflows on an
empty list. -/
def «default» (initialMetrics : List VmMetrics) : Except RtError App := do
  let table_data := initialMetrics.map initialTableData
  let lastIdx ← checkedSub table_data.length 1
  .ok { running := true
        table_state_selected := some 0
        scroll_position := 0
        scroll_content_length := lastIdx * ITEM_HEIGHT
        metrics := initialMetrics
        table_data := table_data }

/-- `App::tick` (src/app.rs lines 145-174), with the fresh `get_vm_data`
result passed in.  It rebuilds `table_data` from the fetched batch paired
positionally with `self.metrics`, and assigns only `self.table_data`:
`self.metrics`, the table state and the scrollbar state are untouched. -/
def tick (fetched : List VmMetrics) (a : App) : Except RtError App := do
  let rows ← tickRowsFrom a.metrics 0 fetched
  .ok { a with table_data := rows }

/-- `App::next` (src/app.rs lines 176-189).  With a selection, compare
against `table_data.len() - 1` (underflows on an empty list); wrap to 0
past the end, else advance; then reposition the scrollbar. -/
def next (a : App) : Except RtError App := do
  let i ← match a.table_state_selected with
    | some i => do
      let lastIdx ← checkedSub a.table_data.length 1
      .ok (if lastIdx ≤ i then 0 else i + 1)
    | none => .ok 0
  .ok { a with table_state_selected := some i, scroll_position := i * ITEM_HEIGHT }

/-- `App::prev` (src/app.rs lines 191-204).  From index 0 wrap to
`table_data.len() - 1` (underflows on an empty list), else step back; then
reposition the scrollbar. -/
def prev (a : App) : Except RtError App := do
  let i ← match a.table_state_selected with
    | some i =>
      if i = 0 then checkedSub a.table_data.length 1 else .ok (i - 1)
    | none => .ok 0
  .ok { a with table_state_selected := some i, scroll_position := i * ITEM_HEIGHT }

/-- `App::quit` (src/app.rs lines 207-210).  The `disconnect` call only
touches the external connection handle; on the `App` state it sets
`running` to false. -/
def quit (a : App) : App := { a with running := false }

end App

/-- `crossterm::event::KeyCode`, restricted to the constructors the handler
inspects; every other key code is `other`. -/
inductive KeyCode where
  | esc
  | up
  | down
  | char (c : Char)
  | other (tag : Nat)
  deriving DecidableEq, Repr

/-- `crossterm::event::KeyEvent`.  `ctrlOnly` models
`key_event.modifiers == KeyModifiers::CONTROL`. -/
structure KeyEvent where
  code : KeyCode
  ctrlOnly : Bool
  deriving DecidableEq, Repr

/-- The `Result<(), Box<dyn Error>>` value `handle_key_events` returns
(distinct from a panic, which is the outer `RtError`). -/
abbrev AppResultUnit := Except String Unit

/-- `handle_key_events` (src/handler.rs lines 9-49).  The Rust `match` arms
are disjoint, so they are rendered as a first-match if-chain.  The
start/stop/snapshot calls are external fire-and-forget commands; their own
outcomes are passed in as `startEff`/`stopEff`/`snapEff` (a panic inside
them propagates) and they do not modify `App`.  The `x` and `s` arms first
evaluate `app.table_data[app.table_state.selected().unwrap()]` — `unwrap`
of `None` and an out-of-range index both panic; the `x` arm then picks
`start` when the row's status string is "off" and `stop` otherwise. -/
def handle_key_events (startEff stopEff snapEff : Except RtError Unit) (k : KeyEvent)
    (a : App) : Except RtError (App × AppResultUnit) :=
  if k.code = .esc ∨ k.code = .char 'q' then
    .ok (a.quit, .ok ())
  else if k.code = .char 'c' ∨ k.code = .char 'C' then
    if k.ctrlOnly then .ok (a.quit, .ok ()) else .ok (a, .ok ())
  else if k.code = .up then do
    let a' ← a.prev
    .ok (a', .ok ())
  else if k.code = .down then do
    let a' ← a.next
    .ok (a', .ok ())
  else if k.code = .char 'x' then do
    let idx ← match a.table_state_selected with
      | some i => .ok i
      | none => .error .unwrapNone
    match a.table_data[idx]? with
      | some item => do
        let _ ← if item.status = "off" then startEff else stopEff
        .ok (a, .ok ())
      | none => .error .indexOutOfBounds
  else if k.code = .char 's' then do
    let idx ← match a.table_state_selected with
      | some i => .ok i
      | none => .error .unwrapNone
    match a.table_data[idx]? with
      | some _ => do
        let _ ← snapEff
        .ok (a, .ok ())
      | none => .error .indexOutOfBounds
  else
    .ok (a, .ok ())

namespace Vms

/-- Outcome of one external libvirt call (`Domain::create`,
`Domain::destroy`, `DomainSnapshot::create_xml`, `DomainSnapshot::free`):
`Except String Unit`, the error being what `unwrap` would panic with. -/
abbrev LibvirtResult := Except String Unit

/-- `start` (src/vms.rs lines 171-175), with the external call results
passed in: if `Domain::lookup_by_name` fails the body is skipped silently;
otherwise `dom.create().unwrap()` panics on an error. -/
def start (lookup : Option Unit) (createRes : LibvirtResult) : Except RtError Unit :=
  match lookup with
  | some _ =>
    match createRes with
    | .ok _ => .ok ()
    | .error e => .error (.panicked e)
  | none => .ok ()

/-- `stop` (src/vms.rs lines 177-181): lookup failure is skipped silently;
otherwise `dom.destroy().unwrap()` panics on an error. -/
def stop (lookup : Option Unit) (destroyRes : LibvirtResult) : Except RtError Unit :=
  match lookup with
  | some _ =>
    match destroyRes with
    | .ok _ => .ok ()
    | .error e => .error (.panicked e)
  | none => .ok ()

/-- `snapshot` (src/vms.rs lines 152-169): lookup failure is skipped
silently; otherwise `DomainSnapshot::create_xml(..).unwrap()` then
`snapshot.free().unwrap()`, each panicking on an error. -/
def snapshot (lookup : Option Unit) (createXmlRes freeRes : LibvirtResult) :
    Except RtError Unit :=
  match lookup with
  | some _ =>
    match createXmlRes with
    | .ok _ =>
      match freeRes with
      | .ok _ => .ok ()
      | .error e => .error (.panicked e)
    | .error e => .error (.panicked e)
  | none => .ok ()

end Vms

/-- The invariant claimed for the scrollbar position: it always equals the
selected index times `ITEM_HEIGHT`. -/
abbrev scrollInv (a : App) : Prop :=
  a.scroll_position = a.table_state_selected.getD 0 * ITEM_HEIGHT

/-! ### Concrete fixtures -/

/-- A running VM snapshot with the given name, id, timestamp (seconds) and
cumulative cpu time (nanoseconds); other counters at their defaults. -/
def mkVm (nm : String) (idn : Nat) (ts : ℚ) (cpu : Nat) : VmMetrics :=
  { VmMetrics.mkDefault ts with name := nm, id := idn, status := true, cpu_time := cpu }

def vmAlpha : VmMetrics := mkVm "alpha" 1 0 0

def vmBeta : VmMetrics := mkVm "beta" 7 2 2000000000

def vmCpuPrev : VmMetrics := mkVm "gamma" 3 0 1000000000

def vmCpuCur1 : VmMetrics := mkVm "gamma" 3 1 2000000000

def vmCpuCur2 : VmMetrics := mkVm "gamma" 3 2 2000000000

def vmG1 : VmMetrics := mkVm "g1" 11 0 0

def vmG2 : VmMetrics := mkVm "g2" 12 0 0

def vmG3 : VmMetrics := mkVm "g3" 13 0 0

def vmP1 : VmMetrics := mkVm "p1" 31 0 0

def vmP2 : VmMetrics := mkVm "p2" 32 0 0

def vmP3 : VmMetrics := mkVm "p3" 33 0 0

def vmP4 : VmMetrics := mkVm "p4" 34 0 0

def vmP5 : VmMetrics := mkVm "p5" 35 0 0

def vmW1 : VmMetrics := mkVm "web1" 41 1 0

def vmW2 : VmMetrics := mkVm "web2" 42 1 0

/-- The state `App::default` builds from a single-VM batch `[vmAlpha]`. -/
def appOneVm : App :=
  { running := true
    table_state_selected := some 0
    scroll_position := 0
    scroll_content_length := 0
    metrics := [vmAlpha]
    table_data := [initialTableData vmAlpha] }

/-- `appOneVm` after a tick that fetched `[vmBeta]`. -/
def appOneVmTicked : App := { appOneVm with table_data := [deriveRow vmAlpha vmBeta] }

/-- `appOneVm` after a tick that fetched no VMs: the row list is empty but
the selection still points at row 0. -/
def appNoRows : App := { appOneVm with table_data := [] }

/-- The state `App::default` builds from the three-VM batch
`[vmG1, vmG2, vmG3]`. -/
def app3 : App :=
  { running := true
    table_state_selected := some 0
    scroll_position := 0
    scroll_content_length := 8
    metrics := [vmG1, vmG2, vmG3]
    table_data := [initialTableData vmG1, initialTableData vmG2, initialTableData vmG3] }

/-- `app3` with the last row (index 2) selected, as two `next` calls leave
it. -/
def app3sel2 : App := { app3 with table_state_selected := some 2, scroll_position := 8 }

/-- A five-row state with the last row (index 4) selected, as
`App::default` on five VMs followed by four `next` calls leaves it. -/
def app5sel4 : App :=
  { running := true
    table_state_selected := some 4
    scroll_position := 16
    scroll_content_length := 16
    metrics := [vmP1, vmP2, vmP3, vmP4, vmP5]
    table_data := [initialTableData vmP1, initialTableData vmP2, initialTableData vmP3,
      initialTableData vmP4, initialTableData vmP5] }

/-- `app5sel4` after a tick that fetched only `[vmW1, vmW2]` (the selected
VM `p5` is gone). -/
def app5after : App :=
  { app5sel4 with table_data := [deriveRow vmP1 vmW1, deriveRow vmP2 vmW2] }

/-! ### Helper lemmas -/

@[simp]
theorem except_bind_ok {ε α β : Type} (x : α) (f : α → Except ε β) :
    (Except.ok (ε := ε) x >>= f) = f x := rfl

@[simp]
theorem except_bind_err {ε α β : Type} (e : ε) (f : α → Except ε β) :
    (Except.error (α := α) e >>= f) = Except.error e := rfl

theorem tickRowsFrom_ok (prevBatch : List VmMetrics) :
    ∀ (f : List VmMetrics) (i : Nat), i + f.length ≤ prevBatch.length →
      tickRowsFrom prevBatch i f =
        .ok ((f.zip (prevBatch.drop i)).map fun cp => deriveRow cp.2 cp.1)
  | [], i, _ => by simp [tickRowsFrom]
  | cur :: rest, i, h => by
    have hi : i < prevBatch.length := by simp at h; omega
    have hrec := tickRowsFrom_ok prevBatch rest (i + 1) (by simp at h ⊢; omega)
    simp [tickRowsFrom, List.getElem?_eq_getElem hi, hrec]
    rw [List.drop_eq_getElem_cons hi, List.zip_cons_cons, List.map_cons]

theorem tickRowsFrom_err (prevBatch : List VmMetrics) :
    ∀ (f : List VmMetrics) (i : Nat), prevBatch.length < i + f.length →
      i ≤ prevBatch.length → tickRowsFrom prevBatch i f = .error .indexOutOfBounds
  | [], i, h, hle => by simp at h; omega
  | cur :: rest, i, h, hle => by
    by_cases hi : i < prevBatch.length
    · have hrec := tickRowsFrom_err prevBatch rest (i + 1) (by simp at h ⊢; omega) hi
      simp [tickRowsFrom, List.getElem?_eq_getElem hi, hrec]
    · have : prevBatch[i]? = none := by
        rw [List.getElem?_eq_none_iff]; omega
      simp [tickRowsFrom, this]

theorem tick_ok_fields {f : List VmMetrics} {a a' : App} (h : App.tick f a = .ok a') :
    a'.running = a.running ∧ a'.table_state_selected = a.table_state_selected ∧
      a'.scroll_position = a.scroll_position ∧
      a'.scroll_content_length = a.scroll_content_length ∧ a'.metrics = a.metrics := by
  cases hr : tickRowsFrom a.metrics 0 f with
  | ok rows =>
    rw [App.tick, hr] at h
    simp only [except_bind_ok, Except.ok.injEq] at h
    subst h
    simp
  | error e =>
    rw [App.tick, hr] at h
    simp at h

/-! ### Claim C1 -/

/-- Claim C1, counterexample: the fetched VM `beta` has no prior snapshot
with its name (`appOneVm` only knows `alpha`), yet the tick derives its row
against `alpha`'s snapshot and reports cpu 100, not the claimed 0.00 first
observation. -/
theorem c1_counterexample :
    vmBeta.name ∉ appOneVm.metrics.map VmMetrics.name ∧
    (App.tick [vmBeta] appOneVm).toOption.map (fun a => a.table_data.map TableData.cpu_usage)
      = some [100] ∧ (100 : ℚ) ≠ 0 := by
  refine ⟨by simp [vmBeta, appOneVm, vmAlpha, mkVm, VmMetrics.mkDefault], ?_, by norm_num⟩
  have h : App.tick [vmBeta] appOneVm = .ok appOneVmTicked := rfl
  rw [h]
  simp only [Except.toOption, Option.map_some]
  simp only [appOneVmTicked, List.map_cons, List.map_nil]
  norm_num [deriveRow, round2, vmAlpha, vmBeta, mkVm, VmMetrics.mkDefault]

/-- Claim C1 (amended): at every tick the previous snapshot for the `i`-th
fetched VM is the `i`-th element of the stored batch, matched purely by
position, never by name; a fetched batch longer than the stored batch
panics with an index out of bounds; stored snapshots beyond the fetched
batch's length contribute no row. -/
theorem c1_tick_pairs_by_position (f : List VmMetrics) (a : App) :
    (f.length ≤ a.metrics.length →
      App.tick f a =
        .ok { a with table_data := (f.zip a.metrics).map fun cp => deriveRow cp.2 cp.1 }) ∧
    (a.metrics.length < f.length → App.tick f a = .error .indexOutOfBounds) := by
  constructor
  · intro h
    have hrows := tickRowsFrom_ok a.metrics f 0 (by omega)
    simp only [List.drop_zero] at hrows
    simp [App.tick, hrows]
  · intro h
    have hrows := tickRowsFrom_err a.metrics f 0 (by omega) (by omega)
    simp [App.tick, hrows]

/-- Claim C1, witness: one in-range tick and one overlong tick evaluated on
concrete states. -/
theorem c1_witness :
    App.tick [vmBeta] appOneVm = .ok appOneVmTicked ∧
    App.tick [vmBeta, vmBeta] appOneVm = .error .indexOutOfBounds := by
  refine ⟨?_, ?_⟩
  · exact (c1_tick_pairs_by_position [vmBeta] appOneVm).1 (by decide)
  · exact (c1_tick_pairs_by_position [vmBeta, vmBeta] appOneVm).2 (by decide)

/-! ### Claim C2 -/

/-- Claim C2 (code bug): `App::tick` never stores the freshly fetched
batch — `self.metrics` is left exactly as it was, so the startup batch
stays the "previous" snapshot forever instead of being replaced each
tick. -/
theorem c2_metrics_never_replaced (f : List VmMetrics) (a a' : App)
    (h : App.tick f a = .ok a') : a'.metrics = a.metrics :=
  (tick_ok_fields h).2.2.2.2

/-- Claim C2, witness: a concrete tick leaves the stored batch exactly as
it was at startup. -/
theorem c2_witness :
    App.tick [vmBeta] appOneVm = .ok appOneVmTicked ∧
    appOneVmTicked.metrics = appOneVm.metrics := by
  have h : App.tick [vmBeta] appOneVm = .ok appOneVmTicked := rfl
  exact ⟨h, c2_metrics_never_replaced [vmBeta] appOneVm appOneVmTicked h⟩

/-! ### Claim C3 -/

/-- Claim C3, counterexample: shrinking from 5 rows to 2 with the selected
VM (`p5`, index 4) gone leaves `selected_index` at `Some 4`, not the
claimed clamp to `Some 1`. -/
theorem c3_counterexample :
    app5sel4.table_data.length = 5 ∧
    (App.tick [vmW1, vmW2] app5sel4).toOption.map
        (fun a => (a.table_data.length, a.table_state_selected)) = some (2, some 4) ∧
    (some 4 : Option Nat) ≠ some 1 := by
  refine ⟨rfl, ?_, by decide⟩
  have h : App.tick [vmW1, vmW2] app5sel4 = .ok app5after := rfl
  rw [h]
  rfl

/-- Claim C3 (amended): an ingest (tick) leaves the selection state
exactly as it was — there is no re-selection by name, no clamping into
range, and no reset to `None` on an empty list, so the claimed invariant
does not hold after a shrink. -/
theorem c3_tick_leaves_selection (f : List VmMetrics) (a a' : App)
    (h : App.tick f a = .ok a') : a'.table_state_selected = a.table_state_selected :=
  (tick_ok_fields h).2.1

/-- Claim C3, witness: the concrete 5-to-2 shrink keeps `Some 4`
selected. -/
theorem c3_witness :
    App.tick [vmW1, vmW2] app5sel4 = .ok app5after ∧
    app5after.table_state_selected = some 4 := by
  have h : App.tick [vmW1, vmW2] app5sel4 = .ok app5after := rfl
  exact ⟨h, c3_tick_leaves_selection [vmW1, vmW2] app5sel4 app5after h⟩

/-! ### Claim C4 -/

/-- Claim C4: the derived cpu percentage is 0.00 whenever the elapsed time
is not positive; 0.00 whenever the cumulative counter went backwards (the
saturating subtraction clamps the delta to zero); and otherwise equals
`((current.cpu_time - previous.cpu_time) / 1e9) / elapsed * 100` rounded
to two decimal places. -/
theorem c4_cpu_percent_derivation (prev cur : VmMetrics) :
    (cur.timestamp ≤ prev.timestamp → (deriveRow prev cur).cpu_usage = 0) ∧
    (cur.cpu_time < prev.cpu_time → (deriveRow prev cur).cpu_usage = 0) ∧
    (prev.timestamp < cur.timestamp →
      (deriveRow prev cur).cpu_usage =
        round2 ((((cur.cpu_time - prev.cpu_time : Nat) : ℚ) / 1000000000) /
          (cur.timestamp - prev.timestamp) * 100)) := by
  refine ⟨?_, ?_, ?_⟩
  · intro hts
    have hmax : max (cur.timestamp - prev.timestamp) 0 = 0 := max_eq_right (by linarith)
    simp [deriveRow, hmax, round2]
  · intro hcpu
    have hz : cur.cpu_time - prev.cpu_time = 0 := Nat.sub_eq_zero_of_le hcpu.le
    simp only [deriveRow, hz]
    split_ifs <;> norm_num [round2]
  · intro hts
    have hmax : max (cur.timestamp - prev.timestamp) 0 = cur.timestamp - prev.timestamp :=
      max_eq_left (by linarith)
    simp only [deriveRow, hmax]
    rw [if_pos (by linarith)]

/-- Claim C4, witness: a 1-second-of-cpu delta over 1 second elapsed gives
100.00, and the same delta over 2 seconds gives 50.00. -/
theorem c4_witness :
    (deriveRow vmCpuPrev vmCpuCur1).cpu_usage = 100 ∧
    (deriveRow vmCpuPrev vmCpuCur2).cpu_usage = 50 := by
  have h1 := (c4_cpu_percent_derivation vmCpuPrev vmCpuCur1).2.2
    (by norm_num [vmCpuPrev, vmCpuCur1, mkVm, VmMetrics.mkDefault])
  have h2 := (c4_cpu_percent_derivation vmCpuPrev vmCpuCur2).2.2
    (by norm_num [vmCpuPrev, vmCpuCur2, mkVm, VmMetrics.mkDefault])
  rw [h1, h2]
  norm_num [vmCpuPrev, vmCpuCur1, vmCpuCur2, mkVm, VmMetrics.mkDefault, round2]

/-! ### Claim C5 -/

/-- Claim C5, counterexample: with zero rows the selection is still
`Some 0` (not `None`), `next` panics on the `len - 1` underflow instead of
being a no-op, and dispatching snapshot panics indexing past the end
instead of returning `NoSelection`. -/
theorem c5_counterexample :
    appNoRows.table_data.length = 0 ∧
    appNoRows.table_state_selected ≠ none ∧
    App.next appNoRows = .error .subOverflow ∧
    handle_key_events (.ok ()) (.ok ()) (.ok ()) ⟨.char 's', false⟩ appNoRows
      = .error .indexOutOfBounds := by
  refine ⟨rfl, by decide, rfl, rfl⟩

/-- Claim C5 (amended): when `row_count == 0` the selection remains
`Some 0` (the startup value) rather than `None`; `next` and `prev` panic
on the `row_count - 1` underflow (debug builds; release builds wrap)
instead of being no-ops; and dispatching the start/stop toggle or snapshot
panics indexing `table_data` out of bounds instead of returning a graceful
`NoSelection`. -/
theorem c5_empty_rows_panics (se pe ne : Except RtError Unit) (m : Bool) (a : App)
    (hdata : a.table_data = []) (hsel : a.table_state_selected = some 0) :
    App.next a = .error .subOverflow ∧
    App.prev a = .error .subOverflow ∧
    handle_key_events se pe ne ⟨.char 'x', m⟩ a = .error .indexOutOfBounds ∧
    handle_key_events se pe ne ⟨.char 's', m⟩ a = .error .indexOutOfBounds := by
  refine ⟨?_, ?_, ?_, ?_⟩
  · simp [App.next, hsel, hdata, checkedSub]
  · simp [App.prev, hsel, hdata, checkedSub]
  · simp [handle_key_events, hsel, hdata]
  · simp [handle_key_events, hsel, hdata]

/-- Claim C5, witness: the empty-row behavior evaluated on the concrete
post-tick state `appNoRows`. -/
theorem c5_witness :
    appNoRows.table_data = [] ∧ appNoRows.table_state_selected = some 0 ∧
    App.next appNoRows = .error .subOverflow ∧
    App.prev appNoRows = .error .subOverflow ∧
    handle_key_events (.ok ()) (.ok ()) (.ok ()) ⟨.char 'x', false⟩ appNoRows
      = .error .indexOutOfBounds ∧
    handle_key_events (.ok ()) (.ok ()) (.ok ()) ⟨.char 's', false⟩ appNoRows
      = .error .indexOutOfBounds := by
  obtain ⟨h1, h2, h3, h4⟩ :=
    c5_empty_rows_panics (.ok ()) (.ok ()) (.ok ()) false appNoRows rfl rfl
  exact ⟨rfl, rfl, h1, h2, h3, h4⟩

/-! ### Claim C6 -/

/-- Claim C6, counterexample: a start command whose underlying
`dom.create()` is rejected panics via `unwrap` — the process crashes
instead of surfacing the failure. -/
theorem c6_counterexample :
    Vms.start (some ()) (.error "requested operation is invalid")
      = .error (.panicked "requested operation is invalid") := rfl

/-- Claim C6 (amended): when the lookup of the VM by name fails, the
start/stop/snapshot command is silently skipped (nothing is surfaced);
when the underlying libvirt operation itself is rejected, the process
panics via `unwrap` rather than surfacing the failure and continuing. -/
theorem c6_command_rejection_panics (e : String) :
    Vms.start none (.error e) = .ok () ∧
    Vms.start (some ()) (.error e) = .error (.panicked e) ∧
    Vms.stop none (.error e) = .ok () ∧
    Vms.stop (some ()) (.error e) = .error (.panicked e) ∧
    Vms.snapshot none (.error e) (.ok ()) = .ok () ∧
    Vms.snapshot (some ()) (.error e) (.ok ()) = .error (.panicked e) ∧
    Vms.snapshot (some ()) (.ok ()) (.error e) = .error (.panicked e) :=
  ⟨rfl, rfl, rfl, rfl, rfl, rfl, rfl⟩

/-- Claim C6, witness: the command outcomes evaluated at a concrete
libvirt error message. -/
theorem c6_witness :
    Vms.start none (.error "domain is already running") = .ok () ∧
    Vms.start (some ()) (.error "domain is already running")
      = .error (.panicked "domain is already running") :=
  ⟨(c6_command_rejection_panics "domain is already running").1,
    (c6_command_rejection_panics "domain is already running").2.1⟩

/-! ### Claim C7 -/

/-- Claim C7: `scroll_offset = selected_index * ITEM_HEIGHT` holds in the
startup state, is preserved by every tick (which touches neither field),
and is re-established unconditionally by every successful navigation
call. -/
theorem c7_scroll_position_tracks_selection :
    (∀ ms a, App.default ms = .ok a → scrollInv a) ∧
    (∀ f a a', scrollInv a → App.tick f a = .ok a' → scrollInv a') ∧
    (∀ a a', App.next a = .ok a' → scrollInv a') ∧
    (∀ a a', App.prev a = .ok a' → scrollInv a') := by
  refine ⟨?_, ?_, ?_, ?_⟩
  · intro ms a h
    simp only [App.default, checkedSub] at h
    split_ifs at h
    · simp only [except_bind_ok, Except.ok.injEq] at h
      subst h
      rfl
    · simp at h
  · intro f a a' hInv h
    have hf := tick_ok_fields h
    unfold scrollInv at *
    rw [hf.2.2.1, hf.2.1]
    exact hInv
  · intro a a' h
    cases hs : a.table_state_selected with
    | none =>
      simp only [App.next, hs, except_bind_ok, Except.ok.injEq] at h
      subst h
      rfl
    | some i =>
      simp only [App.next, hs, checkedSub] at h
      split_ifs at h
      · simp only [except_bind_ok, Except.ok.injEq] at h
        subst h
        rfl
      · simp at h
  · intro a a' h
    cases hs : a.table_state_selected with
    | none =>
      simp only [App.prev, hs, except_bind_ok, Except.ok.injEq] at h
      subst h
      rfl
    | some i =>
      simp only [App.prev, hs, checkedSub] at h
      split_ifs at h
      · simp only [except_bind_ok, Except.ok.injEq] at h
        subst h
        rfl
      · simp at h
      · simp only [except_bind_ok, Except.ok.injEq] at h
        subst h
        rfl

/-- Claim C7, witness: the invariant evaluated on the concrete startup
state and after a concrete wrapping `next`. -/
theorem c7_witness :
    App.default [vmG1, vmG2, vmG3] = .ok app3 ∧ scrollInv app3 ∧
    App.next app3sel2
      = .ok { app3sel2 with table_state_selected := some 0, scroll_position := 0 } ∧
    scrollInv { app3sel2 with table_state_selected := some 0, scroll_position := 0 } := by
  have hd : App.default [vmG1, vmG2, vmG3] = .ok app3 := rfl
  have hn : App.next app3sel2
      = .ok { app3sel2 with table_state_selected := some 0, scroll_position := 0 } := rfl
  exact ⟨hd, c7_scroll_position_tracks_selection.1 [vmG1, vmG2, vmG3] app3 hd, hn,
    c7_scroll_position_tracks_selection.2.2.1 app3sel2 _ hn⟩

/-! ### Claim C8 -/

/-- Claim C8, counterexample: after the 5-to-2 shrink the scrollbar range
is still 16, not the claimed recomputed `(2 - 1) * ITEM_HEIGHT = 4`. -/
theorem c8_counterexample :
    (App.tick [vmW1, vmW2] app5sel4).toOption.map
        (fun a => (a.table_data.length, a.scroll_content_length)) = some (2, 16) ∧
    (16 : Nat) ≠ (2 - 1) * ITEM_HEIGHT := by
  refine ⟨?_, by decide⟩
  have h : App.tick [vmW1, vmW2] app5sel4 = .ok app5after := rfl
  rw [h]
  rfl

/-- Claim C8 (amended): the scrollbar range is computed once, at startup,
as `(row_count - 1) * ITEM_HEIGHT`, with no special-casing of the empty
list — a zero-row startup batch underflows in `len - 1` (debug panic;
release wraparound) — and a tick never recomputes it. -/
theorem c8_scrollbar_range_set_once :
    (∀ ms a, App.default ms = .ok a →
       ms ≠ [] ∧ a.scroll_content_length = (ms.length - 1) * ITEM_HEIGHT) ∧
    App.default [] = .error .subOverflow ∧
    (∀ f a a', App.tick f a = .ok a' →
       a'.scroll_content_length = a.scroll_content_length) := by
  refine ⟨?_, rfl, fun f a a' h => (tick_ok_fields h).2.2.2.1⟩
  intro ms a h
  simp only [App.default, checkedSub] at h
  split_ifs at h with hle
  · simp only [except_bind_ok, Except.ok.injEq] at h
    subst h
    refine ⟨?_, by simp⟩
    intro h0
    subst h0
    simp at hle
  · simp at h

/-- Claim C8, witness: the startup range on three rows is `(3 - 1) * 4`,
and the concrete shrink tick leaves it unchanged. -/
theorem c8_witness :
    App.default [vmG1, vmG2, vmG3] = .ok app3 ∧
    app3.scroll_content_length = ([vmG1, vmG2, vmG3].length - 1) * ITEM_HEIGHT ∧
    App.tick [vmW1, vmW2] app5sel4 = .ok app5after ∧
    app5after.scroll_content_length = app5sel4.scroll_content_length := by
  have hd : App.default [vmG1, vmG2, vmG3] = .ok app3 := rfl
  have ht : App.tick [vmW1, vmW2] app5sel4 = .ok app5after := rfl
  exact ⟨hd, (c8_scrollbar_range_set_once.1 [vmG1, vmG2, vmG3] app3 hd).2, ht,
    c8_scrollbar_range_set_once.2.2 [vmW1, vmW2] app5sel4 app5after ht⟩

/-! ### Claim C9 -/

/-- Claim C9: with a valid selection in a non-empty list, `next` wraps from
the last index to 0 and otherwise increments, and `prev` wraps from 0 to
the last index and otherwise decrements. -/
theorem c9_navigation_wraps (a : App) (i : Nat)
    (hsel : a.table_state_selected = some i) (hi : i < a.table_data.length) :
    (App.next a).toOption.map App.table_state_selected
      = some (some (if i + 1 = a.table_data.length then 0 else i + 1)) ∧
    (App.prev a).toOption.map App.table_state_selected
      = some (some (if i = 0 then a.table_data.length - 1 else i - 1)) := by
  constructor
  · simp only [App.next, hsel, checkedSub]
    rw [if_pos (by omega : 1 ≤ a.table_data.length)]
    by_cases hc : i + 1 = a.table_data.length
    · rw [if_pos hc]
      simp only [except_bind_ok]
      rw [if_pos (by omega : a.table_data.length - 1 ≤ i)]
      simp [Except.toOption]
    · rw [if_neg hc]
      simp only [except_bind_ok]
      rw [if_neg (by omega : ¬ a.table_data.length - 1 ≤ i)]
      simp [Except.toOption]
  · simp only [App.prev, hsel, checkedSub]
    by_cases h0 : i = 0
    · rw [if_pos h0, if_pos h0, if_pos (by omega : 1 ≤ a.table_data.length)]
      simp [Except.toOption]
    · rw [if_neg h0, if_neg h0]
      simp [Except.toOption]

/-- Claim C9, witness: with three rows, `prev` from index 0 wraps to 2 and
`next` from index 2 wraps to 0. -/
theorem c9_witness :
    (App.prev app3).toOption.map App.table_state_selected = some (some 2) ∧
    (App.next app3sel2).toOption.map App.table_state_selected = some (some 0) := by
  have h1 := (c9_navigation_wraps app3 0 rfl (by decide)).2
  have h2 := (c9_navigation_wraps app3sel2 2 rfl (by decide)).1
  constructor
  · simpa [app3] using h1
  · simpa [app3sel2, app3] using h2

/-! ### Claim C10 -/

theorem bindEff_ok {eff : Except RtError Unit} {p out : App × AppResultUnit}
    (h : (eff >>= fun _ => (Except.ok p : Except RtError (App × AppResultUnit))) = .ok out) :
    out = p := by
  cases eff with
  | ok v =>
    simp only [except_bind_ok, Except.ok.injEq] at h
    exact h.symm
  | error e => simp at h

theorem bindStep_ok {x : Except RtError App} {out : App × AppResultUnit}
    (h : (x >>= fun v =>
        (Except.ok (v, (Except.ok () : AppResultUnit)) : Except RtError (App × AppResultUnit)))
      = .ok out) :
    out.2 = .ok () := by
  cases x with
  | ok v =>
    simp only [except_bind_ok, Except.ok.injEq] at h
    rw [← h]
  | error e => simp at h

/-- Claim C10: a key event outside the handled set (Esc, `q`, Ctrl-C, Up,
Down, `x`, `s`) — including `c`/`C` without the CONTROL modifier — leaves
the state unchanged and returns `Ok(())`; and every non-panicking
invocation of the handler returns `Ok(())`, never an `Err`. -/
theorem c10_unhandled_keys_noop (se pe ne : Except RtError Unit) (k : KeyEvent) (a : App)
    (h1 : k.code ≠ .esc) (h2 : k.code ≠ .char 'q') (h3 : k.code ≠ .up)
    (h4 : k.code ≠ .down) (h5 : k.code ≠ .char 'x') (h6 : k.code ≠ .char 's')
    (h7 : k.code = .char 'c' ∨ k.code = .char 'C' → k.ctrlOnly = false) :
    handle_key_events se pe ne k a = .ok (a, .ok ()) ∧
    ∀ (k2 : KeyEvent) (b : App) (out : App × AppResultUnit),
      handle_key_events se pe ne k2 b = .ok out → out.2 = .ok () := by
  constructor
  · unfold handle_key_events
    rw [if_neg (by rintro (hc | hc); exacts [h1 hc, h2 hc])]
    by_cases hcC : k.code = .char 'c' ∨ k.code = .char 'C'
    · rw [if_pos hcC, h7 hcC]
      simp
    · rw [if_neg hcC, if_neg h3, if_neg h4, if_neg h5, if_neg h6]
  · intro k2 b out h
    unfold handle_key_events at h
    split_ifs at h
    · simp only [Except.ok.injEq] at h
      rw [← h]
    · simp only [Except.ok.injEq] at h
      rw [← h]
    · simp only [Except.ok.injEq] at h
      rw [← h]
    · exact bindStep_ok h
    · exact bindStep_ok h
    · cases hs : b.table_state_selected with
      | none =>
        rw [hs] at h
        simp at h
      | some i =>
        rw [hs] at h
        simp only [except_bind_ok] at h
        cases hg : b.table_data[i]? with
        | none =>
          rw [hg] at h
          simp at h
        | some item =>
          simp only [hg] at h
          split_ifs at h <;> simp [bindEff_ok h]
    · cases hs : b.table_state_selected with
      | none =>
        rw [hs] at h
        simp at h
      | some i =>
        rw [hs] at h
        simp only [except_bind_ok] at h
        cases hg : b.table_data[i]? with
        | none =>
          rw [hg] at h
          simp at h
        | some item =>
          simp only [hg] at h
          simp [bindEff_ok h]
    · simp only [Except.ok.injEq] at h
      rw [← h]

/-- Claim C10, witness: `c` without CONTROL on a concrete state is a no-op
returning `Ok(())`. -/
theorem c10_witness :
    handle_key_events (.ok ()) (.ok ()) (.ok ()) ⟨.char 'c', false⟩ appOneVm
      = .ok (appOneVm, .ok ()) :=
  (c10_unhandled_keys_noop (.ok ()) (.ok ()) (.ok ()) ⟨.char 'c', false⟩ appOneVm
    (by decide) (by decide) (by decide) (by decide) (by decide) (by decide) (by decide)).1

end Vmgr
